import Mathlib

/-!
Shallow embedding of the charity-donation backend (Go sources: handlers.go,
validators.go / database layer, minio.go, model declarations) used to check
the specification claims: the donation lifecycle and its cascade into the
referenced post's collected amount and the donor's rating, verification
gating of post creation, message operations, pagination normalisation,
JSON shaping of user records, and storage-URL normalisation.

Monetary amounts (Go float64 holding DECIMAL(15,2) database values) are
modelled as exact rationals; the Go conversion `int(x)` is modelled as
truncation toward zero on rationals (`Int.tdiv` of numerator by denominator).
Database tables are modelled as lists of records; SQL row lookups become
`List.find?`, SQL UPDATE statements become maps over the list.
-/

namespace Hackathon

/-- Application error as built by the error constructors in the Go sources:
error code and HTTP status (the human-readable messages are irrelevant to
the claims and omitted). -/
structure AppError where
  code : String
  httpStatus : Nat
  deriving Repr, DecidableEq

/-- NewConflictError: code CONFLICT, HTTP 409. -/
def conflictErr : AppError := { code := "CONFLICT", httpStatus := 409 }

/-- NewForbiddenError: code FORBIDDEN, HTTP 403. -/
def forbiddenErr : AppError := { code := "FORBIDDEN", httpStatus := 403 }

/-- NewNotFoundError: code NOT_FOUND, HTTP 404. -/
def notFoundErr : AppError := { code := "NOT_FOUND", httpStatus := 404 }

/-- NewValidationError: code VALIDATION_ERROR, HTTP 400. -/
def validationErr : AppError := { code := "VALIDATION_ERROR", httpStatus := 400 }

/-- Post record (posts table / Post struct). Timestamps are omitted; they are
never read by the logic under verification. -/
structure Post where
  id : Int
  userId : Int
  title : String
  description : String
  amount : ℚ
  collected : ℚ
  recipient : String
  bank : String
  phone : String
  status : String
  isEditable : Bool
  deriving Repr, DecidableEq

/-- Donation record (donations table / Donation struct); `confirmedBy` is the
nullable confirmed_by column, the confirmed_at timestamp is omitted. -/
structure Donation where
  id : Int
  postId : Int
  donorId : Int
  amount : ℚ
  status : String
  confirmedBy : Option Int
  deriving Repr, DecidableEq

/-- Rating record (ratings table / Rating struct); the surrogate primary key
and updated_at are omitted, `userId` is the unique lookup key used by the code. -/
structure Rating where
  userId : Int
  points : Int
  totalDonated : ℚ
  status : Option String
  deriving Repr, DecidableEq

/-- Verification record restricted to the fields the gating logic reads:
identity-document payload fields are never consulted by the guards. -/
structure Verification where
  id : Int
  userId : Int
  status : String
  deriving Repr, DecidableEq

/-- Message record (messages table / Message struct), timestamps omitted. -/
structure Message where
  id : Int
  chatId : Int
  senderId : Int
  text : Option String
  attachmentUrl : Option String
  isRead : Bool
  isEdited : Bool
  deriving Repr, DecidableEq

/-- Database state for the donation-confirmation flow. -/
structure DBState where
  posts : List Post
  donations : List Donation
  ratings : List Rating
  deriving Repr, DecidableEq

/-- GetPostByID: SELECT ... FROM posts WHERE id = $1. -/
def getPostByID (posts : List Post) (id : Int) : Option Post :=
  posts.find? (fun p => p.id == id)

/-- GetDonationByID: SELECT ... FROM donations WHERE id = $1. -/
def getDonationByID (ds : List Donation) (id : Int) : Option Donation :=
  ds.find? (fun d => d.id == id)

/-- UpdateDonationStatus: UPDATE donations SET status, confirmed_at, confirmed_by
WHERE id = $3 (no status guard in the WHERE clause). -/
def updateDonationStatus (ds : List Donation) (id : Int) (status : String)
    (confirmedBy : Int) : List Donation :=
  ds.map fun d =>
    if d.id == id then { d with status := status, confirmedBy := some confirmedBy } else d

/-- UpdatePostCollected: UPDATE posts SET collected = collected + $1 WHERE id = $2. -/
def updatePostCollected (posts : List Post) (postID : Int) (amount : ℚ) : List Post :=
  posts.map fun p =>
    if p.id == postID then { p with collected := p.collected + amount } else p

/-- Row inserted by GetOrCreateRating when no rating exists: the ratings table
defaults points = 0, total_donated = 0, status = NULL. -/
def defaultRating (userID : Int) : Rating :=
  { userId := userID, points := 0, totalDonated := 0, status := none }

/-- GetOrCreateRating: SELECT by user_id; on no rows, INSERT a default row.
Returns the (found or created) rating together with the new table state. -/
def getOrCreateRating (rs : List Rating) (userID : Int) : Rating × List Rating :=
  match rs.find? (fun r => r.userId == userID) with
  | some r => (r, rs)
  | none => (defaultRating userID, rs ++ [defaultRating userID])

/-- Status label computed inside UpdateRating from the new points total
(ascending threshold chain of if statements in validators.go). -/
def ratingStatusOf (points : Int) : Option String :=
  if points ≥ 5501 then some "Пламенное Сердце"
  else if points ≥ 2501 then some "Благотворитель"
  else if points ≥ 501 then some "Хранитель Надежды"
  else if points ≥ 5 then some "Друг Платформы"
  else none

/-- UpdateRating: UPDATE ratings SET points, total_donated, status WHERE user_id = $4,
with the status label recomputed from the new points. -/
def updateRating (rs : List Rating) (userID : Int) (points : Int)
    (totalDonated : ℚ) : List Rating :=
  rs.map fun r =>
    if r.userId == userID then
      { r with points := points, totalDonated := totalDonated,
               status := ratingStatusOf points }
    else r

/-- Go conversion int(x) applied to a rational amount: truncation toward zero
(numerator tdiv denominator). -/
def goTrunc (q : ℚ) : Int := q.num.tdiv q.den

/-- ValidateStruct on UpdateDonationRequest: status required, oneof confirmed rejected. -/
def validDonationStatus (s : String) : Bool := s == "confirmed" || s == "rejected"

/-- UpdateDonation handler (handlers.go): permission check (admin or post owner),
request validation, unconditional status update, and — when the requested status
is confirmed — the cascade into Post.collected and the donor's rating.
The handler performs no check that the donation is still pending. -/
def updateDonationH (s : DBState) (donationID userID : Int) (userRole : String)
    (reqStatus : String) : Except AppError DBState :=
  match getDonationByID s.donations donationID with
  | none => .error notFoundErr
  | some donation =>
    match getPostByID s.posts donation.postId with
    | none => .error notFoundErr
    | some post =>
      if (userRole != "admin") && (post.userId != userID) then .error forbiddenErr
      else if !(validDonationStatus reqStatus) then .error validationErr
      else
        let donations := updateDonationStatus s.donations donationID reqStatus userID
        if reqStatus == "confirmed" then
          let posts := updatePostCollected s.posts donation.postId donation.amount
          let pair := getOrCreateRating s.ratings donation.donorId
          let newPoints := pair.1.points + goTrunc donation.amount
          let newTotal := pair.1.totalDonated + donation.amount
          let ratings := updateRating pair.2 donation.donorId newPoints newTotal
          .ok { posts := posts, donations := donations, ratings := ratings }
        else
          .ok { s with donations := donations }

/-- GetVerificationByUserID: SELECT ... FROM verifications WHERE user_id = $1. -/
def getVerificationByUserID (vs : List Verification) (userID : Int) : Option Verification :=
  vs.find? (fun v => v.userId == userID)

/-- CreateVerification handler (handlers.go): the guard that rejects a second
verification request with Conflict when any verification already exists for the
acting user, before any parsing, upload or insert happens; otherwise the row is
inserted with the database default status pending. Identity-document payload
fields are irrelevant to the guard and omitted. -/
def createVerificationH (vs : List Verification) (userID newId : Int) :
    Except AppError (List Verification) :=
  match getVerificationByUserID vs userID with
  | some _ => .error conflictErr
  | none => .ok (vs ++ [{ id := newId, userId := userID, status := "pending" }])

/-- IsUserVerified: SELECT COUNT(*) FROM verifications WHERE user_id = $1 AND
status = approved, compared with zero. -/
def isUserVerified (vs : List Verification) (userID : Int) : Bool :=
  vs.any (fun v => v.userId == userID && v.status == "approved")

/-- CreatePostRequest payload (multipart form fields of the create-post handler). -/
structure CreatePostReq where
  title : String
  description : String
  amount : ℚ
  recipient : String
  bank : String
  phone : String
  deriving Repr, DecidableEq

/-- ValidateStruct on CreatePostRequest: all text fields required (non-empty),
amount required and strictly positive. -/
def validCreatePostReq (r : CreatePostReq) : Bool :=
  r.title != "" && r.description != "" && decide (0 < r.amount) &&
  r.recipient != "" && r.bank != "" && r.phone != ""

/-- CreatePost handler (handlers.go): verification gate first (Forbidden when
the acting user is not verified), then request validation, then the insert with
database defaults collected = 0, status = active, is_editable = true.
Media uploads do not affect the created post row and are omitted. -/
def createPostH (vs : List Verification) (posts : List Post) (userID newId : Int)
    (req : CreatePostReq) : Except AppError (Post × List Post) :=
  if !(isUserVerified vs userID) then .error forbiddenErr
  else if !(validCreatePostReq req) then .error validationErr
  else
    let post : Post :=
      { id := newId, userId := userID, title := req.title,
        description := req.description, amount := req.amount, collected := 0,
        recipient := req.recipient, bank := req.bank, phone := req.phone,
        status := "active", isEditable := true }
    .ok (post, posts ++ [post])

/-- Effect of a SQL UPDATE messages SET is_read = true WHERE <cond>: every row
satisfying the condition has is_read set, and RowsAffected counts those rows. -/
def sqlSetIsRead (cond : Message → Bool) : List Message → List Message × Nat
  | [] => ([], 0)
  | m :: ms =>
    let rest := sqlSetIsRead cond ms
    if cond m then ({ m with isRead := true } :: rest.1, rest.2 + 1)
    else (m :: rest.1, rest.2)

/-- MarkMessagesAsRead (validators.go database layer): with an empty id list,
UPDATE ... WHERE chat_id = $1 AND is_read = false; with a non-empty list,
UPDATE ... WHERE chat_id = $1 AND id = ANY($2). Returns rows affected. -/
def markMessagesAsRead (msgs : List Message) (chatID : Int) (messageIDs : List Int) :
    List Message × Nat :=
  if messageIDs.isEmpty then
    sqlSetIsRead (fun m => m.chatId == chatID && m.isRead == false) msgs
  else
    sqlSetIsRead (fun m => m.chatId == chatID && messageIDs.contains m.id) msgs

/-- MarkMessagesRead handler (handlers.go): decodes the optional body (absent
body leaves MessageIDs nil, i.e. the empty list) and delegates to
MarkMessagesAsRead, answering with the updated count. -/
def markMessagesReadH (msgs : List Message) (chatID : Int) (messageIDs : List Int) :
    List Message × Nat :=
  markMessagesAsRead msgs chatID messageIDs

/-- UpdateMessage (validators.go database layer): UPDATE messages SET text = $1,
is_edited = true WHERE id = $2. -/
def dbUpdateMessage (msgs : List Message) (messageID : Int) (text : String) :
    List Message :=
  msgs.map fun m =>
    if m.id == messageID then { m with text := some text, isEdited := true } else m

/-- DeleteMessage (validators.go database layer): DELETE FROM messages WHERE id = $1. -/
def dbDeleteMessage (msgs : List Message) (messageID : Int) : List Message :=
  msgs.filter (fun m => !(m.id == messageID))

/-- UpdateMessage handler (handlers.go): after resolving the acting user it
validates the new text (required, hence non-empty) and applies the update.
The source contains no comparison between the acting user and the message
sender — the ownership check is commented out as to-be-added. -/
def updateMessageH (msgs : List Message) (messageID actorID : Int) (text : String) :
    Except AppError (List Message) :=
  if text == "" then .error validationErr
  else .ok (dbUpdateMessage msgs messageID text)

/-- DeleteMessage handler (handlers.go): resolves the acting user and deletes;
no comparison between the acting user and the message sender appears. -/
def deleteMessageH (msgs : List Message) (messageID actorID : Int) :
    Except AppError (List Message) :=
  .ok (dbDeleteMessage msgs messageID)

/-- Page normalisation of the GetVerifications handler: page < 1 becomes 1. -/
def getVerificationsPage (page : Int) : Int := if page < 1 then 1 else page

/-- Limit normalisation of the GetVerifications handler: limit < 1 becomes 20;
no upper bound is applied. -/
def getVerificationsLimit (limit : Int) : Int := if limit < 1 then 20 else limit

/-- Page normalisation of the GetPosts handler: page < 1 becomes 1. -/
def getPostsPage (page : Int) : Int := if page < 1 then 1 else page

/-- Limit normalisation of the GetPosts handler: limit < 1 becomes 20;
no upper bound is applied. -/
def getPostsLimit (limit : Int) : Int := if limit < 1 then 20 else limit

/-- Page normalisation of the GetDonations handler: page < 1 becomes 1. -/
def getDonationsPage (page : Int) : Int := if page < 1 then 1 else page

/-- Limit normalisation of the GetDonations handler: limit < 1 becomes 20;
no upper bound is applied. -/
def getDonationsLimit (limit : Int) : Int := if limit < 1 then 20 else limit

/-- Page normalisation of the GetMessages handler: page < 1 becomes 1. -/
def getMessagesPage (page : Int) : Int := if page < 1 then 1 else page

/-- Limit normalisation of the GetMessages handler: limit < 1 becomes 50, then
limits above 100 are clamped to 100 (the only handler with an upper clamp). -/
def getMessagesLimit (limit : Int) : Int :=
  let l := if limit < 1 then 50 else limit
  if l > 100 then 100 else l

/-- Page normalisation of the GetRatings handler: page < 1 becomes 1. -/
def getRatingsPage (page : Int) : Int := if page < 1 then 1 else page

/-- Limit normalisation of the GetRatings handler: limit < 1 becomes 50;
no upper bound is applied. -/
def getRatingsLimit (limit : Int) : Int := if limit < 1 then 50 else limit

/-- User record (users table / User struct); timestamps modelled as integers. -/
structure User where
  id : Int
  phone : String
  passwordHash : String
  firstName : String
  lastName : String
  photoURL : Option String
  role : String
  helperName : Option String
  createdAt : Int
  updatedAt : Int
  isActive : Bool
  deriving Repr, DecidableEq

/-- JSON scalar values appearing in the serialized user payloads. -/
inductive JsonVal where
  | jstr (s : String)
  | jint (n : Int)
  | jbool (b : Bool)
  deriving Repr, DecidableEq

/-- encoding/json treatment of an optional pointer field tagged omitempty:
a nil pointer omits the field, a present value emits it. -/
def optField (name : String) : Option String → List (String × JsonVal)
  | none => []
  | some s => [(name, JsonVal.jstr s)]

/-- JSON object produced for a User by encoding/json under the struct tags of
the model declaration: password_hash is tagged "-" and never emitted; fields
appear in struct order; photo_url and helper_name carry omitempty. -/
def userJSON (u : User) : List (String × JsonVal) :=
  [(("id"), JsonVal.jint u.id), (("phone"), JsonVal.jstr u.phone),
   (("first_name"), JsonVal.jstr u.firstName),
   (("last_name"), JsonVal.jstr u.lastName)] ++
  optField ("photo_url") u.photoURL ++
  [(("role"), JsonVal.jstr u.role)] ++
  optField ("helper_name") u.helperName ++
  [(("created_at"), JsonVal.jint u.createdAt),
   (("updated_at"), JsonVal.jint u.updatedAt),
   (("is_active"), JsonVal.jbool u.isActive)]

/-- Go strings are modelled as lists of characters for the character-level URL
manipulation of minio.go. -/
abbrev GoStr := List Char

/-- strings.Split with a one-character separator: empty parts preserved,
splitting on every occurrence. -/
def goSplit (sep : Char) : GoStr → List GoStr
  | [] => [[]]
  | c :: cs =>
    match goSplit sep cs with
    | [] => [[]]
    | p :: ps => if c = sep then [] :: p :: ps else (c :: p) :: ps

/-- strings.Join with a separator string. -/
def goJoin (sep : GoStr) : List GoStr → GoStr
  | [] => []
  | [x] => x
  | x :: xs => x ++ sep ++ goJoin sep xs

/-- Bucket constant user-photos. -/
def bucketUserPhotos : GoStr := ("user-photos").toList

/-- Bucket constant verification-docs. -/
def bucketVerificationDocs : GoStr := ("verification-docs").toList

/-- Bucket constant post-media. -/
def bucketPostMedia : GoStr := ("post-media").toList

/-- Bucket constant donation-receipts. -/
def bucketDonationReceipts : GoStr := ("donation-receipts").toList

/-- Bucket constant chat-attachments. -/
def bucketChatAttachments : GoStr := ("chat-attachments").toList

/-- Membership test against the five bucket constants, as written in the part
loop of ConvertMinIOURLToBackendURL. -/
def isBucketName (s : GoStr) : Bool :=
  s == bucketUserPhotos || s == bucketVerificationDocs || s == bucketPostMedia ||
  s == bucketDonationReceipts || s == bucketChatAttachments

/-- GetObjectURL (minio.go): scheme from config UseSSL, endpoint with anything
after the first colon stripped, then scheme://host/bucket/objectKey. -/
def getObjectURL (useSSL : Bool) (endpoint bucket objectKey : GoStr) : GoStr :=
  let scheme := if useSSL then ("https").toList else ("http").toList
  let host := if endpoint.contains ':' then ((goSplit ':' endpoint).headD []) else endpoint
  scheme ++ ("://").toList ++ host ++ ("/").toList ++ bucket ++ ("/").toList ++ objectKey

/-- The indexed part scan of ConvertMinIOURLToBackendURL: skip empty parts and
the protocol tokens, skip parts containing a colon or at index below 3, and
return the first index holding one of the five bucket names. -/
def findBucketIndex (i : Nat) : List GoStr → Option Nat
  | [] => none
  | part :: rest =>
    if part == [] || part == ("http:").toList || part == ("https:").toList then
      findBucketIndex (i + 1) rest
    else if part.contains ':' || i < 3 then
      findBucketIndex (i + 1) rest
    else if isBucketName part then some i
    else findBucketIndex (i + 1) rest

/-- ConvertMinIOURLToBackendURL (minio.go): empty and already-normalized URLs
pass through; otherwise the URL is split on slashes, the bucket located by the
indexed scan, and the result rebuilt as /files/bucket/objectKey; URLs without
a recognisable bucket pass through unchanged. -/
def convertMinIOURLToBackendURL (url : GoStr) : GoStr :=
  if url == [] then url
  else if (("/files/").toList).isPrefixOf url then url
  else
    let parts := goSplit '/' url
    match findBucketIndex 0 parts with
    | some idx =>
      let bucket := parts.getD idx []
      let objectKey := goJoin (("/").toList) (parts.drop (idx + 1))
      ("/files/").toList ++ bucket ++ ("/").toList ++ objectKey
    | none => url

/-- String-level wrapper of the URL normalisation, as applied by the profile
handlers to the stored photo URL. -/
def convertStr (s : String) : String :=
  String.mk (convertMinIOURLToBackendURL s.toList)

/-- GetProfile / UpdateProfile response body: the handler blanks PasswordHash,
rewrites a non-empty photo URL through the backend-proxy form, and serializes
the User struct. -/
def getProfileJSON (u : User) : List (String × JsonVal) :=
  let u := { u with passwordHash := "" }
  let u := if h : u.photoURL.isSome then
             if u.photoURL.get h != "" then
               { u with photoURL := some (convertStr (u.photoURL.get h)) }
             else u
           else u
  userJSON u

/-- Login response body: user_id, token, and the User struct with PasswordHash
blanked by the handler before writing. -/
def loginJSON (token : String) (u : User) : List (String × JsonVal) :=
  [(("user_id"), JsonVal.jint u.id), (("token"), JsonVal.jstr token)] ++
  userJSON { u with passwordHash := "" }

/-- UserInfo enrichment used by the donation detail and list handlers: id,
display name (helper name preferred), avatar. -/
def donorInfoJSON (u : User) : List (String × JsonVal) :=
  let name := match u.helperName with
    | some h => h
    | none => u.firstName ++ (" ") ++ u.lastName
  [(("id"), JsonVal.jint u.id), (("name"), JsonVal.jstr name)] ++
  optField ("avatar") u.photoURL

/-- C3: the rating status label written on update is a pure function of the
points total: unset below 5 points, Друг Платформы on [5, 500],
Хранитель Надежды on [501, 2500], Благотворитель on [2501, 5500], and
Пламенное Сердце from 5501 on, every boundary inclusive on the lower bound. -/
theorem ratingStatus_tiers (p : Int) :
    (p < 5 → ratingStatusOf p = none) ∧
    (5 ≤ p → p ≤ 500 → ratingStatusOf p = some ("Друг Платформы")) ∧
    (501 ≤ p → p ≤ 2500 → ratingStatusOf p = some ("Хранитель Надежды")) ∧
    (2501 ≤ p → p ≤ 5500 → ratingStatusOf p = some ("Благотворитель")) ∧
    (5501 ≤ p → ratingStatusOf p = some ("Пламенное Сердце")) := by
  unfold ratingStatusOf
  refine ⟨?_, ?_, ?_, ?_, ?_⟩ <;> intros <;> split_ifs <;> first | rfl | omega

/-- Witness for C3: at exactly 5 points the first tier label is assigned. -/
theorem ratingStatus_tiers_witness : ratingStatusOf 5 = some ("Друг Платформы") :=
  (ratingStatus_tiers 5).2.1 (by decide) (by decide)

/-- C8 counterexample: the posts list handler does not clamp the limit from
above — a requested limit of 500 is used as is, violating limit ≤ 100. -/
theorem postsLimit_not_clamped :
    getPostsLimit 500 = 500 ∧ ¬(getPostsLimit 500 ≤ 100) := by
  exact ⟨rfl, by decide⟩

/-- C8 amended: every list handler normalises page to at least 1 and limit to
at least 1 (defaults 20 for verifications, posts and donations, 50 for messages
and ratings), but only the messages handler clamps the limit from above at 100. -/
theorem pagination_normalisation (page limit : Int) :
    1 ≤ getVerificationsPage page ∧ 1 ≤ getVerificationsLimit limit ∧
    1 ≤ getPostsPage page ∧ 1 ≤ getPostsLimit limit ∧
    1 ≤ getDonationsPage page ∧ 1 ≤ getDonationsLimit limit ∧
    1 ≤ getMessagesPage page ∧ 1 ≤ getMessagesLimit limit ∧
    getMessagesLimit limit ≤ 100 ∧
    1 ≤ getRatingsPage page ∧ 1 ≤ getRatingsLimit limit := by
  unfold getVerificationsPage getVerificationsLimit getPostsPage getPostsLimit
    getDonationsPage getDonationsLimit getMessagesPage getMessagesLimit
    getRatingsPage getRatingsLimit
  refine ⟨?_, ?_, ?_, ?_, ?_, ?_, ?_, ?_, ?_, ?_, ?_⟩ <;> (try dsimp only) <;>
    split_ifs <;> omega

/-- C6: the message edit and delete handlers apply the mutation for an acting
user (here 2) different from the message sender (here 1); the source comments
state the sender-ownership check as intended but skip it. -/
theorem message_edit_delete_unchecked :
    updateMessageH
        [{ id := 1, chatId := 1, senderId := 1, text := some ("hello"),
           attachmentUrl := none, isRead := false, isEdited := false }] 1 2 ("edited") =
      .ok [{ id := 1, chatId := 1, senderId := 1, text := some ("edited"),
             attachmentUrl := none, isRead := false, isEdited := true }] ∧
    deleteMessageH
        [{ id := 1, chatId := 1, senderId := 1, text := some ("hello"),
           attachmentUrl := none, isRead := false, isEdited := false }] 1 2 =
      .ok [] := by
  exact ⟨rfl, rfl⟩

/-- C1: re-confirming an already-confirmed donation is not rejected with
Conflict — the handler succeeds and re-applies the cascade, raising the post's
collected amount from 200 to 300 and the donor's points from 100 to 200. -/
theorem donation_reconfirm_unguarded :
    ∃ s', updateDonationH
        { posts := [{ id := 1, userId := 10, title := ("t"), description := ("d"),
                      amount := 1000, collected := 200, recipient := ("r"),
                      bank := ("b"), phone := ("p"), status := "active",
                      isEditable := true }],
          donations := [{ id := 1, postId := 1, donorId := 20, amount := 100,
                          status := "confirmed", confirmedBy := some 10 }],
          ratings := [{ userId := 20, points := 100, totalDonated := 100,
                        status := some ("Друг Платформы") }] }
        1 99 ("admin") ("confirmed") = .ok s' ∧
      (getPostByID s'.posts 1).map Post.collected = some (200 + 100) ∧
      ((s'.ratings.find? fun r => r.userId == 20).map Rating.points) = some 200 := by
  refine ⟨_, rfl, rfl, ?_⟩
  decide

/-- C9: the serialized user payloads (profile, login, donor enrichment) are
identical for any two stored password hashes, and password_hash is never among
the emitted keys: the struct tag excludes it and the handlers blank it. -/
theorem password_hash_never_serialized (u : User) (h1 h2 : String) (token : String) :
    userJSON { u with passwordHash := h1 } = userJSON { u with passwordHash := h2 } ∧
    getProfileJSON { u with passwordHash := h1 } =
      getProfileJSON { u with passwordHash := h2 } ∧
    loginJSON token { u with passwordHash := h1 } =
      loginJSON token { u with passwordHash := h2 } ∧
    donorInfoJSON { u with passwordHash := h1 } =
      donorInfoJSON { u with passwordHash := h2 } ∧
    ((userJSON u).all fun f => f.1 != ("password_hash")) = true := by
  refine ⟨rfl, rfl, rfl, rfl, ?_⟩
  cases u with
  | mk id phone ph fn ln photo role helper ca ua act =>
    cases photo <;> cases helper <;> rfl

/-- C4: a verification-creation request by a user who already has a
verification record, whatever its status, fails with Conflict before anything
is inserted. -/
theorem second_verification_conflict (vs : List Verification) (u newId : Int)
    (v : Verification) (hv : v ∈ vs) (hu : v.userId = u) :
    createVerificationH vs u newId = .error conflictErr := by
  have hsome : (vs.find? fun w => w.userId == u).isSome = true := by
    rw [List.find?_isSome]
    exact ⟨v, hv, by simp [hu]⟩
  obtain ⟨w, hw⟩ := Option.isSome_iff_exists.mp hsome
  unfold createVerificationH getVerificationByUserID
  rw [hw]

/-- Witness for C4: with a rejected verification on record, user 7 gets
Conflict from a second request. -/
theorem second_verification_conflict_witness :
    createVerificationH [{ id := 1, userId := 7, status := "rejected" }] 7 2 =
      .error conflictErr :=
  second_verification_conflict _ 7 2 { id := 1, userId := 7, status := "rejected" }
    (by decide) rfl

/-- C5: post creation is gated on an approved verification: a user all of whose
verification records (possibly none) are unapproved gets Forbidden and no post,
while a user with an approved verification and a valid request gets the post
created with the database defaults. -/
theorem post_creation_verification_gate (vs : List Verification) (posts : List Post)
    (u newId : Int) (req : CreatePostReq) :
    ((∀ v ∈ vs, v.userId = u → v.status ≠ "approved") →
      createPostH vs posts u newId req = .error forbiddenErr) ∧
    (validCreatePostReq req = true →
     (∃ v ∈ vs, v.userId = u ∧ v.status = "approved") →
      createPostH vs posts u newId req =
        .ok ({ id := newId, userId := u, title := req.title,
               description := req.description, amount := req.amount, collected := 0,
               recipient := req.recipient, bank := req.bank, phone := req.phone,
               status := "active", isEditable := true },
             posts ++
               [{ id := newId, userId := u, title := req.title,
                  description := req.description, amount := req.amount,
                  collected := 0, recipient := req.recipient, bank := req.bank,
                  phone := req.phone, status := "active", isEditable := true }])) := by
  constructor
  · intro hnone
    have hver : isUserVerified vs u = false := by
      unfold isUserVerified
      rw [List.any_eq_false]
      intro v hv
      simp only [Bool.and_eq_true, beq_iff_eq, not_and]
      intro h1 h2
      exact hnone v hv h1 h2
    unfold createPostH
    rw [hver]
    rfl
  · rintro hreq ⟨v, hv, h1, h2⟩
    have hver : isUserVerified vs u = true := by
      unfold isUserVerified
      rw [List.any_eq_true]
      exact ⟨v, hv, by simp [h1, h2]⟩
    unfold createPostH
    rw [hver, hreq]
    rfl

/-- Witness for C5: user 7 with an approved verification and a valid request
gets the post created; the same call shape is rejected for a user with only a
pending verification. -/
theorem post_creation_verification_gate_witness :
    createPostH [{ id := 1, userId := 7, status := "approved" }] [] 7 1
        { title := ("t"), description := ("d"), amount := 10, recipient := ("r"),
          bank := ("b"), phone := ("p") } =
      .ok ({ id := 1, userId := 7, title := ("t"), description := ("d"),
             amount := 10, collected := 0, recipient := ("r"), bank := ("b"),
             phone := ("p"), status := "active", isEditable := true },
           [{ id := 1, userId := 7, title := ("t"), description := ("d"),
              amount := 10, collected := 0, recipient := ("r"), bank := ("b"),
              phone := ("p"), status := "active", isEditable := true }]) :=
  (post_creation_verification_gate
      [{ id := 1, userId := 7, status := "approved" }] [] 7 1 _).2 (by decide)
    ⟨{ id := 1, userId := 7, status := "approved" }, by decide, rfl, rfl⟩

/-- The rows produced by a conditional is_read UPDATE: the matching rows get
is_read set, the others are untouched, order preserved. -/
theorem sqlSetIsRead_fst (cond : Message → Bool) (msgs : List Message) :
    (sqlSetIsRead cond msgs).1 =
      msgs.map fun m => if cond m then { m with isRead := true } else m := by
  induction msgs with
  | nil => rfl
  | cons m ms ih => by_cases h : cond m <;> simp [sqlSetIsRead, h, ih]

/-- The affected-row count of a conditional is_read UPDATE is the number of
rows satisfying the condition. -/
theorem sqlSetIsRead_snd (cond : Message → Bool) (msgs : List Message) :
    (sqlSetIsRead cond msgs).2 = (msgs.filter cond).length := by
  induction msgs with
  | nil => rfl
  | cons m ms ih => by_cases h : cond m <;> simp [sqlSetIsRead, h, ih, List.filter_cons]

/-- C10: marking messages read with an empty id list turns on is_read for
exactly the messages of the chat (changing only those that were unread) and
reports the number of previously-unread messages of that chat; with a
non-empty list it turns on is_read for exactly the listed messages belonging
to that chat and reports how many listed rows the chat contains. -/
theorem mark_messages_read_spec (msgs : List Message) (chatID : Int) (ids : List Int) :
    (markMessagesReadH msgs chatID ids).1 =
      (msgs.map fun m =>
        { m with isRead :=
            m.isRead || (m.chatId == chatID && (ids.isEmpty || ids.contains m.id)) }) ∧
    (markMessagesReadH msgs chatID ids).2 =
      (if ids.isEmpty then msgs.filter (fun m => m.chatId == chatID && !m.isRead)
       else msgs.filter (fun m => m.chatId == chatID && ids.contains m.id)).length := by
  unfold markMessagesReadH markMessagesAsRead
  by_cases hids : ids.isEmpty = true
  · rw [if_pos hids, if_pos hids]
    constructor
    · rw [sqlSetIsRead_fst]
      apply List.map_congr_left
      intro m hm
      cases m with
      | mk i c s t a r e =>
        cases r <;> by_cases h1 : (c == chatID) = true <;> simp [h1, hids]
    · rw [sqlSetIsRead_snd]
      congr 1
      apply List.filter_congr
      intro m hm
      cases m with
      | mk i c s t a r e => cases r <;> simp
  · rw [if_neg hids, if_neg hids]
    constructor
    · rw [sqlSetIsRead_fst]
      apply List.map_congr_left
      intro m hm
      cases m with
      | mk i c s t a r e =>
        cases r <;> by_cases h1 : (c == chatID) = true <;>
          by_cases h2 : i ∈ ids <;>
          simp [h1, h2, Bool.of_not_eq_true hids]
    · rw [sqlSetIsRead_snd]

/-- Lookup of a post after UpdatePostCollected: the addressed post comes back
with collected raised by the amount. -/
theorem getPostByID_updatePostCollected (posts : List Post) (pid : Int) (a : ℚ) :
    getPostByID (updatePostCollected posts pid a) pid =
      (getPostByID posts pid).map fun p => { p with collected := p.collected + a } := by
  unfold getPostByID updatePostCollected
  induction posts with
  | nil => rfl
  | cons p ps ih =>
    by_cases h : p.id = pid
    · simp [List.find?_cons, h]
    · have hb : (p.id == pid) = false := by simpa using h
      simp only [List.map_cons, List.find?_cons, hb, Bool.false_eq_true, if_false]
      exact ih

/-- Lookup of a rating after UpdateRating: the addressed row comes back with
the new points, total and recomputed label. -/
theorem findRating_updateRating (rs : List Rating) (uid pts : Int) (td : ℚ) :
    (updateRating rs uid pts td).find? (fun r => r.userId == uid) =
      (rs.find? fun r => r.userId == uid).map fun r =>
        { r with points := pts, totalDonated := td, status := ratingStatusOf pts } := by
  unfold updateRating
  induction rs with
  | nil => rfl
  | cons r rs ih =>
    by_cases h : r.userId = uid
    · simp [List.find?_cons, h]
    · have hb : (r.userId == uid) = false := by simpa using h
      simp only [List.map_cons, List.find?_cons, hb, Bool.false_eq_true, if_false]
      exact ih

/-- Truncation toward zero agrees with the floor on non-negative rationals. -/
theorem goTrunc_eq_floor (q : ℚ) (h : 0 ≤ q) : goTrunc q = ⌊q⌋ := by
  unfold goTrunc
  rw [Rat.floor_def]
  exact Int.tdiv_eq_ediv (Rat.num_nonneg.mpr h) (Int.natCast_nonneg q.den)

/-- C2: confirming a pending donation of amount A by an authorized actor adds
exactly A to the referenced post's collected amount, fetches or creates the
donor's rating, adds exactly floor A to its points (1 currency unit = 1 point,
truncated), adds exactly A to its total donated, and recomputes the label. -/
theorem donation_confirm_cascade (s : DBState) (donationID userID : Int)
    (userRole : String) (d : Donation) (p : Post)
    (hd : getDonationByID s.donations donationID = some d)
    (hpend : d.status = "pending")
    (hp : getPostByID s.posts d.postId = some p)
    (hauth : userRole = "admin" ∨ p.userId = userID)
    (hamt : 0 ≤ d.amount) :
    ∃ s', updateDonationH s donationID userID userRole ("confirmed") = .ok s' ∧
      getPostByID s'.posts d.postId =
        some { p with collected := p.collected + d.amount } ∧
      (s'.ratings.find? fun r => r.userId == d.donorId) =
        some { userId := d.donorId,
               points := (getOrCreateRating s.ratings d.donorId).1.points + ⌊d.amount⌋,
               totalDonated :=
                 (getOrCreateRating s.ratings d.donorId).1.totalDonated + d.amount,
               status := ratingStatusOf
                 ((getOrCreateRating s.ratings d.donorId).1.points + ⌊d.amount⌋) } := by
  have htr : goTrunc d.amount = ⌊d.amount⌋ := goTrunc_eq_floor d.amount hamt
  have hcond : ((userRole != "admin") && (p.userId != userID)) = false := by
    rcases hauth with h | h <;> simp [h]
  unfold updateDonationH
  simp only [hd, hp, hcond, Bool.false_eq_true, if_false, validDonationStatus]
  refine ⟨_, rfl, ?_, ?_⟩
  · dsimp only
    rw [getPostByID_updatePostCollected, hp, Option.map_some']
  · dsimp only
    cases hfind : s.ratings.find? (fun r => r.userId == d.donorId) with
    | some r0 =>
      have hr0 := List.find?_some hfind
      have huid : r0.userId = d.donorId := by simpa using hr0
      have hor : getOrCreateRating s.ratings d.donorId = (r0, s.ratings) := by
        unfold getOrCreateRating
        rw [hfind]
      rw [hor]
      dsimp only
      rw [findRating_updateRating, hfind, Option.map_some']
      simp [huid, htr]
    | none =>
      have hor : getOrCreateRating s.ratings d.donorId =
          (defaultRating d.donorId, s.ratings ++ [defaultRating d.donorId]) := by
        unfold getOrCreateRating
        rw [hfind]
      rw [hor]
      dsimp only
      rw [findRating_updateRating, List.find?_append, hfind]
      simp [defaultRating, htr]

/-- Witness for C2: the post owner confirms a pending 100-unit donation on a
post with 50 collected and no prior rating row for the donor. -/
theorem donation_confirm_cascade_witness :
    ∃ s', updateDonationH
        { posts := [{ id := 1, userId := 10, title := ("t"), description := ("d"),
                      amount := 1000, collected := 50, recipient := ("r"),
                      bank := ("b"), phone := ("p"), status := "active",
                      isEditable := true }],
          donations := [{ id := 2, postId := 1, donorId := 20, amount := 100,
                          status := "pending", confirmedBy := none }],
          ratings := [] } 2 10 ("user") ("confirmed") = .ok s' ∧
      getPostByID s'.posts 1 =
        some { id := 1, userId := 10, title := ("t"), description := ("d"),
               amount := 1000, collected := 50 + 100, recipient := ("r"),
               bank := ("b"), phone := ("p"), status := "active",
               isEditable := true } ∧
      (s'.ratings.find? fun r => r.userId == 20) =
        some { userId := 20, points := 0 + ⌊(100 : ℚ)⌋, totalDonated := 0 + 100,
               status := ratingStatusOf (0 + ⌊(100 : ℚ)⌋) } :=
  donation_confirm_cascade _ 2 10 ("user")
    { id := 2, postId := 1, donorId := 20, amount := 100,
      status := "pending", confirmedBy := none }
    { id := 1, userId := 10, title := ("t"), description := ("d"),
      amount := 1000, collected := 50, recipient := ("r"),
      bank := ("b"), phone := ("p"), status := "active", isEditable := true }
    rfl rfl rfl (Or.inr rfl) (by norm_num)

/-- A split never returns an empty list of parts. -/
theorem goSplit_ne_nil (sep : Char) (s : GoStr) : goSplit sep s ≠ [] := by
  cases s with
  | nil => simp [goSplit]
  | cons c cs =>
    unfold goSplit
    cases h : goSplit sep cs with
    | nil => simp
    | cons p ps => by_cases hc : c = sep <;> simp [hc]

/-- One unfolding step of the split. -/
theorem goSplit_cons (sep c : Char) (cs : GoStr) :
    goSplit sep (c :: cs) =
      match goSplit sep cs with
      | [] => [[]]
      | p :: ps => if c = sep then [] :: p :: ps else (c :: p) :: ps := rfl

/-- Every character of every part of a split occurs in the split string. -/
theorem mem_of_mem_goSplit (sep : Char) (s : GoStr) :
    ∀ p ∈ goSplit sep s, ∀ c ∈ p, c ∈ s := by
  induction s with
  | nil =>
    intro p hp c hc
    simp [goSplit] at hp
    subst hp
    simp at hc
  | cons a as ih =>
    intro p hp c hc
    rw [goSplit_cons] at hp
    cases h : goSplit sep as with
    | nil => exact absurd h (goSplit_ne_nil sep as)
    | cons q qs =>
      rw [h] at hp
      dsimp only at hp
      by_cases ha : a = sep
      · rw [if_pos ha] at hp
        rcases List.mem_cons.mp hp with h1 | h1
        · subst h1
          simp at hc
        · exact List.mem_cons_of_mem a (ih p (by rw [h]; exact h1) c hc)
      · rw [if_neg ha] at hp
        rcases List.mem_cons.mp hp with h1 | h1
        · subst h1
          rcases List.mem_cons.mp hc with h2 | h2
          · simp [h2]
          · exact List.mem_cons_of_mem a
              (ih q (by rw [h]; exact List.mem_cons_self q qs) c h2)
        · exact List.mem_cons_of_mem a
            (ih p (by rw [h]; exact List.mem_cons_of_mem q h1) c hc)

/-- Splitting a string that starts with a separator-free chunk followed by the
separator peels off that chunk as the first part. -/
theorem goSplit_append (sep : Char) (xs ys : GoStr) (hxs : sep ∉ xs) :
    goSplit sep (xs ++ sep :: ys) = xs :: goSplit sep ys := by
  induction xs with
  | nil =>
    rw [List.nil_append, goSplit_cons]
    cases h : goSplit sep ys with
    | nil => exact absurd h (goSplit_ne_nil sep ys)
    | cons p ps => simp
  | cons c cs ih =>
    have hc : ¬(c = sep) := fun h => hxs (by simp [h])
    have hcs : sep ∉ cs := fun h => hxs (List.mem_cons_of_mem c h)
    rw [List.cons_append, goSplit_cons, ih hcs]
    simp [hc]

/-- Joining a split with the same one-character separator restores the string. -/
theorem goJoin_goSplit (sep : Char) (s : GoStr) :
    goJoin [sep] (goSplit sep s) = s := by
  induction s with
  | nil => rfl
  | cons c cs ih =>
    rw [goSplit_cons]
    cases h : goSplit sep cs with
    | nil => exact absurd h (goSplit_ne_nil sep cs)
    | cons p ps =>
      rw [h] at ih
      dsimp only
      by_cases hc : c = sep
      · subst hc
        rw [if_pos rfl]
        cases ps <;> simp [goJoin] at ih ⊢ <;> simp [ih]
      · rw [if_neg hc]
        cases ps <;> simp [goJoin] at ih ⊢ <;> simp [ih]

/-- Any part sitting at an index below 3 is skipped by the bucket scan. -/
theorem findBucketIndex_skip (i : Nat) (hi : i < 3) (part : GoStr) (rest : List GoStr) :
    findBucketIndex i (part :: rest) = findBucketIndex (i + 1) rest := by
  conv_lhs => rw [findBucketIndex]
  by_cases h : (part == ([] : GoStr) || part == ("http:").toList ||
      part == ("https:").toList) = true
  · rw [if_pos h]
  · rw [if_neg h, if_pos (show (part.contains ':' || decide (i < 3)) = true by simp [hi])]

/-- Normalisation of a URL of the shape scheme://host/bucket/objectKey with a
slash-free host and one of the five platform buckets yields the proxy path. -/
theorem convert_roundtrip_core (schemeCol host bucket objectKey : GoStr)
    (hA : schemeCol = ("http:").toList ∨ schemeCol = ("https:").toList)
    (hhost : ('/' : Char) ∉ host)
    (hb : isBucketName bucket = true) :
    convertMinIOURLToBackendURL (schemeCol ++ ("//").toList ++ host ++ ("/").toList ++
        bucket ++ ("/").toList ++ objectKey) =
      ("/files/").toList ++ bucket ++ ("/").toList ++ objectKey := by
  have hb' : bucket = bucketUserPhotos ∨ bucket = bucketVerificationDocs ∨
      bucket = bucketPostMedia ∨ bucket = bucketDonationReceipts ∨
      bucket = bucketChatAttachments := by
    unfold isBucketName at hb
    simp only [Bool.or_eq_true, beq_iff_eq] at hb
    tauto
  have hbslash : ('/' : Char) ∉ bucket := by
    rcases hb' with rfl | rfl | rfl | rfl | rfl <;> decide
  have hfound : ∀ rest, findBucketIndex 3 (bucket :: rest) = some 3 := by
    intro rest
    conv_lhs => rw [findBucketIndex]
    rcases hb' with rfl | rfl | rfl | rfl | rfl <;> rfl
  rcases hA with rfl | rfl
  · have e : ("http:").toList ++ ("//").toList ++ host ++ ("/").toList ++
        bucket ++ ("/").toList ++ objectKey =
        ("http:").toList ++ '/' :: (([] : GoStr) ++ '/' ::
          (host ++ '/' :: (bucket ++ '/' :: objectKey))) := by
      show ("http:").toList ++ ['/', '/'] ++ host ++ ['/'] ++
          bucket ++ ['/'] ++ objectKey = _
      simp [List.append_assoc]
    rw [e]
    have hsp : goSplit '/' (("http:").toList ++ '/' :: (([] : GoStr) ++ '/' ::
        (host ++ '/' :: (bucket ++ '/' :: objectKey)))) =
        ("http:").toList :: ([] : GoStr) :: host :: bucket :: goSplit '/' objectKey := by
      rw [goSplit_append _ _ _ (by decide), goSplit_append _ _ _ (by simp),
        goSplit_append _ _ _ hhost, goSplit_append _ _ _ hbslash]
    unfold convertMinIOURLToBackendURL
    rw [if_neg (fun h => Bool.noConfusion h), if_neg (fun h => Bool.noConfusion h)]
    dsimp only
    rw [hsp, findBucketIndex_skip 0 (by omega), findBucketIndex_skip 1 (by omega),
      findBucketIndex_skip 2 (by omega), hfound]
    dsimp only [List.getD, List.get?, List.drop]
    rw [show ("/").toList = ['/'] from rfl, goJoin_goSplit]
    rfl
  · have e : ("https:").toList ++ ("//").toList ++ host ++ ("/").toList ++
        bucket ++ ("/").toList ++ objectKey =
        ("https:").toList ++ '/' :: (([] : GoStr) ++ '/' ::
          (host ++ '/' :: (bucket ++ '/' :: objectKey))) := by
      show ("https:").toList ++ ['/', '/'] ++ host ++ ['/'] ++
          bucket ++ ['/'] ++ objectKey = _
      simp [List.append_assoc]
    rw [e]
    have hsp : goSplit '/' (("https:").toList ++ '/' :: (([] : GoStr) ++ '/' ::
        (host ++ '/' :: (bucket ++ '/' :: objectKey)))) =
        ("https:").toList :: ([] : GoStr) :: host :: bucket :: goSplit '/' objectKey := by
      rw [goSplit_append _ _ _ (by decide), goSplit_append _ _ _ (by simp),
        goSplit_append _ _ _ hhost, goSplit_append _ _ _ hbslash]
    unfold convertMinIOURLToBackendURL
    rw [if_neg (fun h => Bool.noConfusion h), if_neg (fun h => Bool.noConfusion h)]
    dsimp only
    rw [hsp, findBucketIndex_skip 0 (by omega), findBucketIndex_skip 1 (by omega),
      findBucketIndex_skip 2 (by omega), hfound]
    dsimp only [List.getD, List.get?, List.drop]
    rw [show ("/").toList = ['/'] from rfl, goJoin_goSplit]
    rfl

/-- C7: for every storage reference built by GetObjectURL for one of the five
platform buckets — any scheme (http or https via UseSSL), any slash-free
endpoint (host with optional colon-separated port), any object key —
ConvertMinIOURLToBackendURL yields exactly /files/bucket/objectKey. -/
theorem url_roundtrip (useSSL : Bool) (endpoint bucket objectKey : GoStr)
    (hb : isBucketName bucket = true)
    (hhost : ('/' : Char) ∉ endpoint) :
    convertMinIOURLToBackendURL (getObjectURL useSSL endpoint bucket objectKey) =
      ("/files/").toList ++ bucket ++ ("/").toList ++ objectKey := by
  have hhostE : ('/' : Char) ∉
      (if endpoint.contains ':' then ((goSplit ':' endpoint).headD ([] : GoStr))
       else endpoint) := by
    by_cases h : endpoint.contains ':' = true
    · rw [if_pos h]
      intro hmem
      cases hsp : goSplit ':' endpoint with
      | nil => exact goSplit_ne_nil ':' endpoint hsp
      | cons p ps =>
        rw [hsp] at hmem
        exact hhost (mem_of_mem_goSplit ':' endpoint p
          (by rw [hsp]; exact List.mem_cons_self p ps) '/' (by simpa using hmem))
    · rw [if_neg h]
      exact hhost
  cases useSSL with
  | false =>
    exact convert_roundtrip_core (("http:").toList) _ bucket objectKey
      (Or.inl rfl) hhostE hb
  | true =>
    exact convert_roundtrip_core (("https:").toList) _ bucket objectKey
      (Or.inr rfl) hhostE hb

/-- Witness for C7: a photo stored through endpoint localhost:9000 in the
post-media bucket resolves to the backend proxy path. -/
theorem url_roundtrip_witness :
    convertMinIOURLToBackendURL
        (getObjectURL false (("localhost:9000").toList) bucketPostMedia
          (("posts/1/media_0.jpg").toList)) =
      ("/files/").toList ++ bucketPostMedia ++ ("/").toList ++
        (("posts/1/media_0.jpg").toList) :=
  url_roundtrip false (("localhost:9000").toList) bucketPostMedia
    (("posts/1/media_0.jpg").toList) (by decide) (by decide)

end Hackathon
